import Mathlib

/-
Verification of the resilient-extraction engine of the JapanScraper
repository against its natural-language specification.

The definitions below are shallow embeddings of the Python source:
  - buyee_scraper.py   (BuyeeScraper: session, classifier, extraction, pagination)
  - core_engine.py     (CoreEngine: workflow orchestration, dedup)
  - price_comparator.py (PriceComparator: retry/backoff page fetch)
Selenium/driver effects are modelled as explicit environment records whose
fields record the outcome each DOM probe or navigation would have; machine
time is modelled as rational seconds.
-/

namespace JapanScraper

/-! ## Locator resolver (buyee_scraper.py, extract_card_info / wait_for_element)

Each logical field is resolved by a loop
  for selector in candidates: el := wait_for_element(...); if success: break
where wait_for_element returns the element or None on timeout/exception.
A candidate outcome is modelled as Option: some v when the candidate
succeeds within its timeout (with its field-specific success condition),
none otherwise.  resolveFirst returns the first successful value together
with the number of candidates that were attempted. -/

def resolveFirst {α : Type} : List (Option α) → Option α × Nat
  | [] => (none, 0)
  | some v :: _ => (some v, 1)
  | none :: rest => ((resolveFirst rest).1, (resolveFirst rest).2 + 1)

/-! ## Session manager (buyee_scraper.py, ensure_valid_session)

State touched by ensure_valid_session: the retry counter
session_retry_count and the bound max_session_retries = 3.  The probe is
reading driver.current_url; reconnection is cleanup + sleep + setup_driver.
The embedding takes the probe and reconnect outcomes as booleans and the
current counter, and returns (result, new counter, reconnect attempted). -/

def maxSessionRetries : Nat := 3

def ensure_valid_session (probeOk : Bool) (reconnectOk : Bool) (count : Nat) :
    Bool × Nat × Bool :=
  if probeOk then (true, count, false)
  else if maxSessionRetries ≤ count then (false, count, false)
  else if reconnectOk then (true, 0, true)
  else (false, count + 1, true)

/-! ## URL de-duplication (core_engine.py, search_listings lines 177-188)

The accumulated listings are filtered keeping each URL once:
  unique = []; seen = set()
  for listing in all_listings:
    if listing[url] not in seen: seen.add(url); unique.append(listing)
A listing is modelled by its url plus an opaque payload standing for the
remaining record fields (which the dedup never reads). -/

structure Listing where
  url : String
  payload : String
deriving DecidableEq, Repr

def dedupAux (seen : List String) : List Listing → List Listing
  | [] => []
  | l :: rest =>
    if l.url ∈ seen then dedupAux seen rest
    else l :: dedupAux (l.url :: seen) rest

def search_listings_dedup (allListings : List Listing) : List Listing :=
  dedupAux [] allListings

/-! ## Retry/backoff page fetch (price_comparator.py, PriceComparator._get_page)

The fetch loop runs for retry in range(max_retries); for retry > 0 it first
sleeps retry_delays[min(retry-1, len(retry_delays)-1)] + uniform(0,2).
Outcomes of one HTTP attempt, mirroring the branch structure of the source:
  ok            -> return response.text
  notFound      -> 404: return None immediately
  rateLimited   -> 403/429: continue unless last attempt, else return None
  serverError   -> >= 500: same
  badContentType / tooShort: same
  requestError  -> requests.RequestException: the handler ends the loop body,
                   so the next iteration runs (or the loop ends and None is
                   returned after it).
The jitter drawn before attempt r is modelled as a function j : Nat -> Rat
(the values used below are exactly representable in binary floating point,
so the rational model agrees with Python float arithmetic on them). -/

inductive FetchOutcome where
  | ok (body : String)
  | notFound
  | rateLimited
  | serverError
  | badContentType
  | tooShort
  | requestError
deriving DecidableEq, Repr

def isRetryable : FetchOutcome → Bool
  | FetchOutcome.ok _ => false
  | FetchOutcome.notFound => false
  | FetchOutcome.rateLimited => true
  | FetchOutcome.serverError => true
  | FetchOutcome.badContentType => true
  | FetchOutcome.tooShort => true
  | FetchOutcome.requestError => true

def retryDelays : List ℚ := [1, 2, 5, 10]

def baseDelay (r : Nat) : ℚ :=
  retryDelays.getD (min (r - 1) (retryDelays.length - 1)) 0

def attemptDelay (j : Nat → ℚ) (r : Nat) : List ℚ :=
  if 0 < r then [baseDelay r + j r] else []

/-- Embeds the fetch loop of _get_page.  fuel counts remaining iterations
(initially maxR, so fuel = maxR - r throughout); r is the current retry
index.  Returns (result, attempts performed, delays slept between attempts
in order). -/
def getPageAux (o : Nat → FetchOutcome) (j : Nat → ℚ) (maxR : Nat) :
    Nat → Nat → Option String × Nat × List ℚ
  | 0, _ => (none, 0, [])
  | fuel + 1, r =>
    match o r with
    | FetchOutcome.ok b => (some b, 1, attemptDelay j r)
    | FetchOutcome.notFound => (none, 1, attemptDelay j r)
    | FetchOutcome.requestError =>
      ((getPageAux o j maxR fuel (r + 1)).1,
       (getPageAux o j maxR fuel (r + 1)).2.1 + 1,
       attemptDelay j r ++ (getPageAux o j maxR fuel (r + 1)).2.2)
    | FetchOutcome.rateLimited =>
      if r + 1 < maxR then
        ((getPageAux o j maxR fuel (r + 1)).1,
         (getPageAux o j maxR fuel (r + 1)).2.1 + 1,
         attemptDelay j r ++ (getPageAux o j maxR fuel (r + 1)).2.2)
      else (none, 1, attemptDelay j r)
    | FetchOutcome.serverError =>
      if r + 1 < maxR then
        ((getPageAux o j maxR fuel (r + 1)).1,
         (getPageAux o j maxR fuel (r + 1)).2.1 + 1,
         attemptDelay j r ++ (getPageAux o j maxR fuel (r + 1)).2.2)
      else (none, 1, attemptDelay j r)
    | FetchOutcome.badContentType =>
      if r + 1 < maxR then
        ((getPageAux o j maxR fuel (r + 1)).1,
         (getPageAux o j maxR fuel (r + 1)).2.1 + 1,
         attemptDelay j r ++ (getPageAux o j maxR fuel (r + 1)).2.2)
      else (none, 1, attemptDelay j r)
    | FetchOutcome.tooShort =>
      if r + 1 < maxR then
        ((getPageAux o j maxR fuel (r + 1)).1,
         (getPageAux o j maxR fuel (r + 1)).2.1 + 1,
         attemptDelay j r ++ (getPageAux o j maxR fuel (r + 1)).2.2)
      else (none, 1, attemptDelay j r)

def get_page (o : Nat → FetchOutcome) (j : Nat → ℚ) (maxR : Nat) :
    Option String × Nat × List ℚ :=
  getPageAux o j maxR maxR 0

/-- Retry run in which every attempt raises a connection-type error. -/
def cexOutcomes : Nat → FetchOutcome := fun _ => FetchOutcome.requestError

/-- One concrete jitter draw: 1.5 before attempt 2, 0 before attempt 3. -/
def cexJitter : Nat → ℚ := fun r => if r = 1 then 3 / 2 else 0

/-! ## Maintenance handler (buyee_scraper.py, handle_maintenance)

handle_maintenance opens maintenance_status.txt in mode w (truncating any
previous contents) and writes the current detection time, then reads the
file back, parses the first-line timestamp, and stops (returns False,
without sleeping) when now minus that timestamp exceeds 7200 seconds;
otherwise it sleeps 1800 seconds and returns True.
prevStatus is the first-line timestamp the file held before the call
(none when the file did not exist); tWrite is the time written into the
file by this call; tCheck is the time at which the duration is computed
(in one call tCheck is at most a few milliseconds after tWrite).
Result: (continue?, first-line timestamp now on disk, seconds slept). -/

def maintenanceCeiling : ℚ := 7200

def handle_maintenance (_prevStatus : Option ℚ) (tWrite tCheck : ℚ) :
    Bool × Option ℚ × Nat :=
  let written : Option ℚ := some tWrite
  match written with
  | some start =>
    if maintenanceCeiling < tCheck - start then (false, written, 0)
    else (true, written, 1800)
  | none => (true, written, 1800)

/-! ## Page-state classifier (buyee_scraper.py, check_page_state)

The page observed by one classification call is modelled by the outcomes
of the classifier probes: which CSS selectors find an element, the raw
page source string, whether the item container appeared within its wait,
the number of li.itemCard elements, and the essential-element probes. -/

structure SearchPage where
  matchedSelectors : List String
  pageSource : String
  hasContainer : Bool
  numCards : Nat
  hasHeader : Bool
  hasFooter : Bool
  hasSearchBox : Bool
  hasCategoryMenu : Bool

def noResultsSelectors : List String :=
  ["div.bidNotfound_middle",
   "div.noResults",
   "div.searchResult__noResults",
   "div.searchResult__empty",
   "div.searchResult__message",
   "div.messageBox--noResults",
   "div.searchResult__noItems",
   "div.searchResult__emptyMessage",
   "div.searchResult__noData",
   "div.searchResult__noDataMessage"]

def noResultsTexts : List String :=
  ["No Results Found",
   "Could not find any results for",
   "該当する商品が見つかりませんでした",
   "検索結果はありませんでした",
   "商品が見つかりませんでした",
   "検索条件に一致する商品はありませんでした",
   "該当する商品はありませんでした",
   "検索結果がありません",
   "商品が見つかりません",
   "該当する商品はありません",
   "検索条件に一致する商品はありません"]

/-- Character-list t is a prefix of character-list s. -/
def charsPrefix : List Char → List Char → Bool
  | [], _ => true
  | _ :: _, [] => false
  | a :: as, b :: bs => a == b && charsPrefix as bs

/-- Character-list t occurs contiguously inside character-list s. -/
def charsOccur (t : List Char) : List Char → Bool
  | [] => t.isEmpty
  | c :: cs => charsPrefix t (c :: cs) || charsOccur t cs

/-- The source tests `text in page_source` (substring containment). -/
def containsText (src t : String) : Bool :=
  charsOccur t.toList src.toList

/-- Python str.strip(): drop leading and trailing whitespace.  Implemented
structurally on the character list so concrete values evaluate. -/
def dropLeadingWs : List Char → List Char
  | [] => []
  | c :: cs => if c.isWhitespace then dropLeadingWs cs else c :: cs

def pyStrip (s : String) : String :=
  String.mk ((dropLeadingWs ((dropLeadingWs s.toList.reverse)).reverse))

/-- Python str.startswith(), structurally on character lists. -/
def pyStartsWith (s pre : String) : Bool :=
  charsPrefix pre.toList s.toList

def selectorHit (p : SearchPage) (sel : String) : Bool :=
  p.matchedSelectors.contains sel

/-- Embeds check_page_state (returning the (state, is_error) pair).  Debug
snapshots, the readyState wait and the cookie-popup probe have no effect on
the returned state and are omitted; the final catch-all exception branches
return the same pair as the error branches modelled here. -/
def check_page_state (p : SearchPage) : String × Bool :=
  if noResultsSelectors.any (selectorHit p) then ("no_results", false)
  else if noResultsTexts.any (containsText p.pageSource) then ("no_results", false)
  else if p.hasContainer then
    if 0 < p.numCards then ("ready", false)
    else if noResultsSelectors.any (selectorHit p) then ("no_results", false)
    else ("error", true)
  else if p.hasHeader && p.hasFooter && p.hasSearchBox then
    if noResultsSelectors.any (selectorHit p) then ("no_results", false)
    else if noResultsTexts.any (containsText p.pageSource) then ("no_results", false)
    else ("error", true)
  else ("error", true)

/-- Concrete page for the no-results witness: the structural no-results
banner is present, the container is absent and there are no cards. -/
def noResultsPage : SearchPage :=
  { matchedSelectors := ["div.noResults"]
    pageSource := "search page body"
    hasContainer := false
    numCards := 0
    hasHeader := true
    hasFooter := true
    hasSearchBox := true
    hasCategoryMenu := false }

/-! ## Extraction pipeline (buyee_scraper.py, extract_card_info)

Per-card extraction resolves title+URL, price and thumbnail, each against
an ordered candidate-selector list via wait_for_element (modelled with
resolveFirst).  The outcome a candidate selector would produce on this
card is recorded per field:
  titleCands: the found anchor (its text and href attribute), or none;
    the loop breaks at the first found element regardless of its contents.
  priceCands: the found element text, or none; the loop breaks only when
    the stripped text is non-empty.
  thumbCands: the found image (data-src attr, src attr), or none; the loop
    breaks only when data-src or src yields a non-empty URL.
The AI-analysis enrichment of the record is performed by an external
collaborator and never rejects the record; it is outside the claims and
omitted from the record. -/

structure TitleElem where
  text : String
  href : Option String
deriving DecidableEq, Repr

structure CardElems where
  titleCands : List (Option TitleElem)
  priceCands : List (Option String)
  thumbCands : List (Option (Option String × Option String))
deriving DecidableEq, Repr

structure CardRecord where
  title : String
  url : String
  price : ℚ
  thumbnailUrl : Option String
deriving DecidableEq, Repr

/-- Embeds clean_price: strip every character that is not a digit or a
dot, then parse as a Python float literal; parse failure yields 0.0. -/
def cleanPrice (raw : String) : ℚ :=
  let s := String.mk (raw.toList.filter (fun c => c.isDigit || c == '.'))
  match s.split (fun c => c == '.') with
  | [w] =>
    match w.toNat? with
    | some n => (n : ℚ)
    | none => 0
  | [w, f] =>
    match w.toNat?, f.toNat? with
    | some a, some b => (a : ℚ) + (b : ℚ) / ((10 : ℚ) ^ f.length)
    | some a, none => if f = "" then (a : ℚ) else 0
    | none, some b => if w = "" then (b : ℚ) / ((10 : ℚ) ^ f.length) else 0
    | none, none => 0
  | _ => 0

/-- Python `a or b` on optional attribute strings: a wins unless falsy. -/
def pyOrAttr (a b : Option String) : Option String :=
  match a with
  | some x => if x = "" then b else some x
  | none => b

/-- Maps an optional string to none when missing or empty (Python falsy). -/
def nonEmptyAttr (o : Option String) : Option String :=
  o.bind (fun s => if s = "" then none else some s)

def extract_card_info (c : CardElems) : Option CardRecord :=
  match (resolveFirst c.titleCands).1 with
  | none => none
  | some te =>
    let title := pyStrip te.text
    let url := (te.href.getD "")
    if title = "" ∨ url = "" then none
    else
      let priceText :=
        (resolveFirst (c.priceCands.map
          (fun o => o.bind (fun t => if pyStrip t = "" then none else some (pyStrip t))))).1
      let price := match priceText with
        | some t => cleanPrice t
        | none => 0
      let thumb :=
        (resolveFirst (c.thumbCands.map
          (fun o => o.bind (fun ds => nonEmptyAttr (pyOrAttr ds.1 ds.2))))).1
      some { title := title, url := url, price := price, thumbnailUrl := thumb }

def baseUrl : String := "https://buyee.jp"

/-- Embeds the URL validity gate at the top of scrape_item_detail_page:
`if not url or not url.startswith(self.base_url): return None`.
Returns true exactly when the detail fetch proceeds past the gate. -/
def detailUrlAccepted (url : String) : Bool :=
  !(url == "") && pyStartsWith url baseUrl

/-- Card whose first title candidate holds a relative href. -/
def relativeHrefCard : CardElems :=
  { titleCands := [some { text := "Blue-Eyes White Dragon", href := some "/item/x123" }]
    priceCands := []
    thumbCands := [] }

/-! ## Per-card loop of get_item_summaries_from_search_page

For each held card reference the loop first re-verifies DOM attachment
(is_element_attached reads element.tag_name and catches staleness), then
runs extract_card_info; a StaleElementReferenceException raised during
extraction is caught and the card is skipped with continue.  The source
contains no re-resolution of a stale reference from the parent scope, so
the second component below, which counts re-resolution attempts, is never
incremented by any branch. -/

structure CardModel where
  attached : Bool
  staleDuringExtract : Bool
  elems : CardElems
deriving DecidableEq, Repr

def processCards : List CardModel → List CardRecord × Nat
  | [] => ([], 0)
  | c :: rest =>
    if ¬ c.attached then processCards rest
    else if c.staleDuringExtract then processCards rest
    else
      match extract_card_info c.elems with
      | some r => ((r :: (processCards rest).1), (processCards rest).2)
      | none => processCards rest

/-- A card detected as detached before any field read. -/
def staleCard : CardModel :=
  { attached := false
    staleDuringExtract := false
    elems := { titleCands := [], priceCands := [], thumbCands := [] } }

/-! ## Search pagination (buyee_scraper.py, search_items)

The environment records what each driver interaction would produce during
this search run:
  driverValid     is_driver_valid before the search starts
  navFails i      attempt i of driver.get(search_url) raises
  midNavValid i   is_driver_valid inside the handler of failed attempt i
  pageReady       wait_for_page_ready after the initial navigation
  driverValidAt p is_driver_valid at the top of the page loop on page p
  summariesAt p   item summary URLs extracted from page p
  detailOf u      scrape_item_detail_page result for URL u
  isValuable d    the combined analyzer verdict on a detail record
  hasNext p       has_next_page probe on page p
  nextNav p       go_to_next_page on page p: none when the button vanished
                  before the click (no navigation happens), some b when the
                  click navigated and b is the wait_for_page_ready result. -/

structure DetailedItem where
  title : String
deriving DecidableEq, Repr

structure SearchEnv where
  driverValid : Bool
  navFails : Nat → Bool
  midNavValid : Nat → Bool
  pageReady : Bool
  driverValidAt : Nat → Bool
  summariesAt : Nat → List String
  detailOf : String → Option DetailedItem
  isValuable : DetailedItem → Bool
  hasNext : Nat → Bool
  nextNav : Nat → Option Bool

/-- Embeds the initial-navigation retry loop (attempts 0,1,2; on the last
failed attempt the function returns the empty list, and a failed
is_driver_valid check between attempts does the same). -/
def navRetrySucceeds (env : SearchEnv) : Bool :=
  if ¬ env.navFails 0 then true
  else if ¬ env.midNavValid 0 then false
  else if ¬ env.navFails 1 then true
  else if ¬ env.midNavValid 1 then false
  else ¬ env.navFails 2

/-- Embeds the per-item body of the page loop: fetch the detail page, skip
on failure, keep the record when both analyzers call it valuable. -/
def processSummaries (env : SearchEnv) (urls : List String) : List DetailedItem :=
  urls.filterMap (fun u =>
    (env.detailOf u).bind (fun d => if env.isValuable d then some d else none))

/-- Embeds the while page <= max_pages loop.  fuel is maxPages + 1 - page,
so the fuel-exhaustion branch coincides with the loop condition failing.
The second component counts page loads performed by the loop, i.e. clicks
of the next-page control inside go_to_next_page. -/
def pagesLoop (env : SearchEnv) (maxPages : Nat) :
    Nat → Nat → List DetailedItem × Nat
  | 0, _ => ([], 0)
  | fuel + 1, page =>
    if maxPages < page then ([], 0)
    else if ¬ env.driverValidAt page then ([], 0)
    else if (env.summariesAt page).isEmpty then ([], 0)
    else
      let items := processSummaries env (env.summariesAt page)
      if ¬ env.hasNext page then (items, 0)
      else
        match env.nextNav page with
        | none => (items, 0)
        | some ready =>
          if ready then
            ((items ++ (pagesLoop env maxPages fuel (page + 1)).1),
             (pagesLoop env maxPages fuel (page + 1)).2 + 1)
          else (items, 1)

/-- Embeds search_items: every fatal path (invalid driver, exhausted
navigation retries, page never ready, and the outer catch-all handler)
returns the empty list.  Result: (returned items, page loads performed by
the pagination loop). -/
def search_items (env : SearchEnv) (maxPages : Nat) : List DetailedItem × Nat :=
  if ¬ env.driverValid then ([], 0)
  else if ¬ navRetrySucceeds env then ([], 0)
  else if ¬ env.pageReady then ([], 0)
  else pagesLoop env maxPages maxPages 1

/-- Benign environment: navigation succeeds, every page has one summary
whose detail fetch fails, the next-page probe always reports true. -/
def envBase : SearchEnv :=
  { driverValid := true
    navFails := fun _ => false
    midNavValid := fun _ => true
    pageReady := true
    driverValidAt := fun _ => true
    summariesAt := fun _ => ["https://buyee.jp/item/x1"]
    detailOf := fun _ => none
    isValuable := fun _ => false
    hasNext := fun _ => true
    nextNav := fun _ => some true }

/-- Run in which every attempt to load the search page raises: the unit of
work dies of a fatal error. -/
def envFatalNav : SearchEnv :=
  { envBase with navFails := fun _ => true }

/-- Successful run that finds no listings: the first results page is empty. -/
def envEmptyOk : SearchEnv :=
  { envBase with summariesAt := fun _ => [] }

/-! ### Lemmas about the dedup loop -/

theorem dedupAux_sublist (seen : List String) (xs : List Listing) :
    (dedupAux seen xs).Sublist xs := by
  induction xs generalizing seen with
  | nil => simp [dedupAux]
  | cons x rest ih =>
    by_cases h : x.url ∈ seen
    · simp only [dedupAux, if_pos h]
      exact List.Sublist.cons x (ih seen)
    · simp only [dedupAux, if_neg h]
      exact List.Sublist.cons₂ x (ih (x.url :: seen))

theorem dedupAux_not_seen (seen : List String) (xs : List Listing) :
    ∀ l ∈ dedupAux seen xs, l.url ∉ seen := by
  induction xs generalizing seen with
  | nil => simp [dedupAux]
  | cons x rest ih =>
    intro l hl
    by_cases h : x.url ∈ seen
    · rw [dedupAux, if_pos h] at hl
      exact ih seen l hl
    · rw [dedupAux, if_neg h] at hl
      rcases List.mem_cons.1 hl with hl | hl
      · simpa [hl] using h
      · have := ih (x.url :: seen) l hl
        exact fun hmem => this (List.mem_cons_of_mem _ hmem)

theorem dedupAux_nodup (seen : List String) (xs : List Listing) :
    ((dedupAux seen xs).map Listing.url).Nodup := by
  induction xs generalizing seen with
  | nil => simp [dedupAux]
  | cons x rest ih =>
    by_cases h : x.url ∈ seen
    · simpa [dedupAux, if_pos h] using ih seen
    · simp only [dedupAux, if_neg h, List.map_cons, List.nodup_cons]
      refine ⟨?_, ih (x.url :: seen)⟩
      intro hmem
      rcases List.mem_map.1 hmem with ⟨m, hm, hurl⟩
      have := dedupAux_not_seen (x.url :: seen) rest m hm
      exact this (by simp [hurl])

theorem dedupAux_first (seen : List String) (xs : List Listing) :
    ∀ l ∈ dedupAux seen xs, xs.find? (fun y => y.url == l.url) = some l := by
  induction xs generalizing seen with
  | nil => simp [dedupAux]
  | cons x rest ih =>
    intro l hl
    by_cases h : x.url ∈ seen
    · rw [dedupAux, if_pos h] at hl
      have hfirst := ih seen l hl
      have hne : l.url ∉ seen := dedupAux_not_seen seen rest l hl
      have hxne : (x.url == l.url) = false := by
        by_cases hx : x.url = l.url
        · exact absurd (hx ▸ h) hne
        · simpa using hx
      rw [List.find?_cons, hxne]
      exact hfirst
    · rw [dedupAux, if_neg h] at hl
      rcases List.mem_cons.1 hl with hl | hl
      · subst hl
        rw [List.find?_cons]
        simp
      · have hfirst := ih (x.url :: seen) l hl
        have hne : l.url ∉ x.url :: seen := dedupAux_not_seen (x.url :: seen) rest l hl
        have hxne : (x.url == l.url) = false := by
          by_cases hx : x.url = l.url
          · exact absurd (by simp [hx]) hne
          · simpa using hx
        rw [List.find?_cons, hxne]
        exact hfirst

theorem dedupAux_complete (seen : List String) (xs : List Listing) :
    ∀ l ∈ xs, l.url ∈ seen ∨ ∃ m ∈ dedupAux seen xs, m.url = l.url := by
  induction xs generalizing seen with
  | nil => simp
  | cons x rest ih =>
    intro l hl
    by_cases h : x.url ∈ seen
    · rcases List.mem_cons.1 hl with hl | hl
      · subst hl
        exact Or.inl h
      · rcases ih seen l hl with hmem | ⟨m, hm, hurl⟩
        · exact Or.inl hmem
        · exact Or.inr ⟨m, by rw [dedupAux, if_pos h]; exact hm, hurl⟩
    · rcases List.mem_cons.1 hl with hl | hl
      · subst hl
        refine Or.inr ⟨l, ?_, rfl⟩
        rw [dedupAux, if_neg h]
        exact List.mem_cons_self _ _
      · rcases ih (x.url :: seen) l hl with hmem | ⟨m, hm, hurl⟩
        · rcases List.mem_cons.1 hmem with heq | hmem2
          · refine Or.inr ⟨x, ?_, heq.symm⟩
            rw [dedupAux, if_neg h]
            exact List.mem_cons_self _ _
          · exact Or.inl hmem2
        · refine Or.inr ⟨m, ?_, hurl⟩
          rw [dedupAux, if_neg h]
          exact List.mem_cons_of_mem _ hm

/-- C10: For every input list of listings, the list returned by the URL
de-duplication of CoreEngine.search_listings contains no two entries with
the same url value, is a subsequence of the input (original encounter
order), keeps for each url exactly the first-encountered listing, and
represents every url of the input. -/
theorem search_listings_dedup_unique_first (xs : List Listing) :
    ((search_listings_dedup xs).map Listing.url).Nodup
    ∧ (search_listings_dedup xs).Sublist xs
    ∧ (∀ l ∈ search_listings_dedup xs,
        xs.find? (fun y => y.url == l.url) = some l)
    ∧ (∀ l ∈ xs, ∃ m ∈ search_listings_dedup xs, m.url = l.url) := by
  refine ⟨dedupAux_nodup [] xs, dedupAux_sublist [] xs, dedupAux_first [] xs, ?_⟩
  intro l hl
  rcases dedupAux_complete [] xs l hl with hmem | h
  · simp at hmem
  · exact h

/-- Witness for C10 at a concrete input: in [a1, a2, b3] with a1 and a2
sharing a url, the kept representative of that url is the first one. -/
theorem search_listings_dedup_unique_first_witness :
    [Listing.mk "https://buyee.jp/item/a" "first",
     Listing.mk "https://buyee.jp/item/a" "second",
     Listing.mk "https://buyee.jp/item/b" "third"].find?
      (fun y => y.url == (Listing.mk "https://buyee.jp/item/a" "first").url)
      = some (Listing.mk "https://buyee.jp/item/a" "first") :=
  (search_listings_dedup_unique_first
    [Listing.mk "https://buyee.jp/item/a" "first",
     Listing.mk "https://buyee.jp/item/a" "second",
     Listing.mk "https://buyee.jp/item/b" "third"]).2.2.1
    (Listing.mk "https://buyee.jp/item/a" "first") (by decide)

/-- C7: when a field is resolved against an ordered candidate list in which
every candidate before index k fails and candidate k succeeds with value v,
the resolver returns v and attempts exactly the first k + 1 candidates, so
candidates k+1..N are never attempted. -/
theorem resolveFirst_first_success {α : Type} (cands : List (Option α))
    (k : Nat) (v : α)
    (hk : cands.get? k = some (some v))
    (hbefore : ∀ j, j < k → cands.get? j = some none) :
    resolveFirst cands = (some v, k + 1) := by
  induction cands generalizing k with
  | nil => simp at hk
  | cons c rest ih =>
    cases k with
    | zero =>
      simp only [List.get?] at hk
      have hc : c = some v := by injection hk
      subst hc
      simp [resolveFirst]
    | succ k2 =>
      have hc : c = none := by
        have h0 := hbefore 0 (Nat.succ_pos _)
        simpa using h0
      subst hc
      have hrest : resolveFirst rest = (some v, k2 + 1) := by
        refine ih k2 (by simpa using hk) ?_
        intro j hj
        have := hbefore (j + 1) (Nat.succ_lt_succ hj)
        simpa using this
      simp [resolveFirst, hrest]

/-- Witness for C7: with candidates [fail, succeed 3, succeed 7] the
resolver returns 3 after attempting exactly 2 candidates. -/
theorem resolveFirst_first_success_witness :
    resolveFirst [none, some 3, some 7] = (some 3, 2) :=
  resolveFirst_first_success [none, some 3, some 7] 1 3 rfl
    (by
      intro j hj
      match j, hj with
      | 0, _ => rfl)

/-- C8: session reconnection is bounded by maxSessionRetries = 3
consecutive failures.  When the liveness probe fails: with the counter at
the bound, ensure_valid_session returns False without attempting a
reconnect and leaves the counter unchanged; below the bound a successful
reconnect returns True and resets the counter to zero; and a reconnect is
ever attempted only while the counter is below the bound. -/
theorem ensure_valid_session_bounded (p r : Bool) (c : Nat) :
    (p = false → maxSessionRetries ≤ c →
      ensure_valid_session p r c = (false, c, false))
    ∧ (p = false → c < maxSessionRetries → r = true →
      ensure_valid_session p r c = (true, 0, true))
    ∧ ((ensure_valid_session p r c).2.2 = true → c < maxSessionRetries) := by
  refine ⟨?_, ?_, ?_⟩
  · intro hp hc
    subst hp
    simp [ensure_valid_session, hc]
  · intro hp hc hr
    subst hp; subst hr
    simp [ensure_valid_session, Nat.not_le.2 hc]
  · intro hatt
    by_contra hge
    have hge2 : maxSessionRetries ≤ c := Nat.not_lt.1 hge
    cases p with
    | true => simp [ensure_valid_session] at hatt
    | false => simp [ensure_valid_session, hge2] at hatt

/-- Witness for C8: at the bound (counter 3) the probe failure is reported
unrecoverable with no reconnect; just below it (counter 2) a successful
reconnect resumes with the counter reset to zero. -/
theorem ensure_valid_session_bounded_witness :
    ensure_valid_session false true 3 = (false, 3, false)
    ∧ ensure_valid_session false true 2 = (true, 0, true) :=
  ⟨(ensure_valid_session_bounded false true 3).1 rfl (by decide),
   (ensure_valid_session_bounded false true 2).2.1 rfl (by decide) rfl⟩

/-- C6: any page on which a known no-results marker is present (a
structural no-results selector matches, or a curated localized no-results
phrase occurs in the page source) and which shows no item cards is
classified no_results, whatever the container probe reported. -/
theorem check_page_state_no_results_marker (p : SearchPage)
    (_hcards : p.numCards = 0)
    (hmark : noResultsSelectors.any (selectorHit p) = true
      ∨ noResultsTexts.any (containsText p.pageSource) = true) :
    check_page_state p = ("no_results", false) := by
  rcases hmark with h | h
  · simp [check_page_state, h]
  · by_cases hs : noResultsSelectors.any (selectorHit p) = true
    · simp [check_page_state, hs]
    · simp [check_page_state, hs, h]

/-- Witness for C6: a card-free page carrying the structural banner
div.noResults, without the item container, classifies as no_results. -/
theorem check_page_state_no_results_marker_witness :
    check_page_state noResultsPage = ("no_results", false) :=
  check_page_state_no_results_marker noResultsPage rfl (Or.inl (by decide))

/-- C4 (code evaluated at the failing input): handle_maintenance rewrites
the status file with the current detection time before reading it back, so
a run whose first maintenance detection is on record 10800 seconds in the
past, well beyond the 7200-second ceiling, still yields True (continue)
together with the 1800-second cooldown sleep, and the decision is
independent of the previously recorded first-detection time. -/
theorem handle_maintenance_ignores_first_detection :
    handle_maintenance (some (-10800)) 0 0 = (true, some 0, 1800)
    ∧ maintenanceCeiling < (0 : ℚ) - (-10800)
    ∧ ∀ (prev prev2 : Option ℚ) (tW tC : ℚ),
        handle_maintenance prev tW tC = handle_maintenance prev2 tW tC := by
  refine ⟨by norm_num [handle_maintenance, maintenanceCeiling],
    by norm_num [maintenanceCeiling], ?_⟩
  intro prev prev2 tW tC
  rfl

/-! ### Retry/backoff lemmas (C3) -/

/-- One retryable, non-final iteration of the _get_page loop: the attempt
is consumed, its pre-attempt delay is recorded, and the loop continues. -/
theorem getPageAux_retry_step (o : Nat → FetchOutcome) (j : Nat → ℚ)
    (maxR fuel r : Nat)
    (hr : isRetryable (o r) = true) (hlt : r + 1 < maxR) :
    getPageAux o j maxR (fuel + 1) r =
      ((getPageAux o j maxR fuel (r + 1)).1,
       (getPageAux o j maxR fuel (r + 1)).2.1 + 1,
       attemptDelay j r ++ (getPageAux o j maxR fuel (r + 1)).2.2) := by
  cases ho : o r <;> simp [getPageAux, ho, isRetryable, hlt] at hr ⊢

/-- The final retryable iteration (fuel 1, next index reaching maxR):
the loop ends and the failure value None is returned. -/
theorem getPageAux_retry_last (o : Nat → FetchOutcome) (j : Nat → ℚ)
    (maxR r : Nat)
    (hr : isRetryable (o r) = true) (heq : r + 1 = maxR) :
    getPageAux o j maxR 1 r = (none, 1, attemptDelay j r) := by
  have hnlt : ¬ r + 1 < maxR := by omega
  cases ho : o r <;> simp [getPageAux, ho, isRetryable, hnlt] at hr ⊢

/-- C3 (amended): a _get_page run whose three attempts all fail with
retryable errors performs exactly max_retries = 3 attempts, sleeps the
delays 1 + jitter then 2 + jitter between consecutive attempts — the
pre-jitter backoff schedule is non-decreasing — and returns the failure
value None to the caller. -/
theorem get_page_always_retryable (o : Nat → FetchOutcome) (j : Nat → ℚ)
    (h : ∀ i, i < 3 → isRetryable (o i) = true) :
    get_page o j 3 = (none, 3, [baseDelay 1 + j 1, baseDelay 2 + j 2])
    ∧ baseDelay 1 ≤ baseDelay 2 := by
  constructor
  · have h0 := h 0 (by norm_num)
    have h1 := h 1 (by norm_num)
    have h2 := h 2 (by norm_num)
    have s0 := getPageAux_retry_step o j 3 2 0 h0 (by norm_num)
    have s1 := getPageAux_retry_step o j 3 1 1 h1 (by norm_num)
    have s2 := getPageAux_retry_last o j 3 2 h2 (by norm_num)
    rw [get_page]
    rw [show (3 : Nat) = 2 + 1 from rfl] at s0 ⊢
    rw [s0, s1, s2]
    simp [attemptDelay]
  · norm_num [baseDelay, retryDelays]

/-- Witness for C3 (amended) at a concrete always-retryable run: every
attempt times out with a connection error and the jitter draw is cexJitter. -/
theorem get_page_always_retryable_witness :
    get_page cexOutcomes cexJitter 3
      = (none, 3, [baseDelay 1 + cexJitter 1, baseDelay 2 + cexJitter 2]) :=
  (get_page_always_retryable cexOutcomes cexJitter (fun _ _ => rfl)).1

/-- C3 counterexample: on the concrete always-retryable run with jitter
draws 1.5 and 0, the delays actually slept between attempts are 2.5
seconds then 2 seconds — the inserted delay decreases across attempts, so
the inserted delays are not non-decreasing as the claim states. -/
theorem get_page_jitter_delay_decreases :
    get_page cexOutcomes cexJitter 3 = (none, 3, [5 / 2, 2])
    ∧ ¬ ((5 : ℚ) / 2 ≤ 2) := by
  constructor
  · have s0 := getPageAux_retry_step cexOutcomes cexJitter 3 2 0 rfl (by norm_num)
    have s1 := getPageAux_retry_step cexOutcomes cexJitter 3 1 1 rfl (by norm_num)
    have s2 := getPageAux_retry_last cexOutcomes cexJitter 3 2 rfl (by norm_num)
    rw [get_page]
    rw [show (3 : Nat) = 2 + 1 from rfl] at s0 ⊢
    rw [s0, s1, s2]
    simp only [attemptDelay, baseDelay, retryDelays, cexJitter]
    norm_num
  · norm_num

/-! ### Extraction-record theorems (C9) -/

/-- C9 (amended): extract_card_info rejects a card (returns none) whenever
the resolved title or the resolved href is missing or empty, so every
emitted record carries a non-empty detail URL; absoluteness itself is
enforced downstream, where the gate of scrape_item_detail_page only lets a
URL through when it starts with the base URL. -/
theorem extract_card_info_url_nonempty :
    (∀ (c : CardElems) (r : CardRecord),
        extract_card_info c = some r → r.title ≠ "" ∧ r.url ≠ "")
    ∧ (∀ u : String, detailUrlAccepted u = true →
        pyStartsWith u baseUrl = true) := by
  constructor
  · intro c r h
    rcases hres : (resolveFirst c.titleCands).1 with _ | te
    · rw [extract_card_info, hres] at h
      simp at h
    · rw [extract_card_info, hres] at h
      simp only at h
      by_cases hg : pyStrip te.text = "" ∨ te.href.getD "" = ""
      · rw [if_pos hg] at h
        simp at h
      · rw [if_neg hg] at h
        push_neg at hg
        have hr := Option.some.inj h
        subst hr
        exact ⟨hg.1, hg.2⟩
  · intro u hu
    rw [detailUrlAccepted, Bool.and_eq_true] at hu
    exact hu.2

/-- Witness for C9 (amended): a concrete emitted record has a non-empty
URL, and a URL passing the detail-page gate starts with the base URL. -/
theorem extract_card_info_url_nonempty_witness :
    ((CardRecord.mk "Blue-Eyes White Dragon" "/item/x123" 0 none).title ≠ ""
      ∧ (CardRecord.mk "Blue-Eyes White Dragon" "/item/x123" 0 none).url ≠ "")
    ∧ pyStartsWith "https://buyee.jp/item/x123" baseUrl = true :=
  ⟨extract_card_info_url_nonempty.1 relativeHrefCard
      (CardRecord.mk "Blue-Eyes White Dragon" "/item/x123" 0 none) (by decide),
   extract_card_info_url_nonempty.2 "https://buyee.jp/item/x123" (by decide)⟩

/-- C9 counterexample: a card whose first title anchor carries the
relative href /item/x123 is not rejected; extract_card_info emits the
record with that relative URL, which does not start with the base URL (nor
with any scheme), contradicting the claim that such a record is rejected. -/
theorem extract_card_info_relative_url :
    extract_card_info relativeHrefCard
      = some (CardRecord.mk "Blue-Eyes White Dragon" "/item/x123" 0 none)
    ∧ pyStartsWith "/item/x123" baseUrl = false
    ∧ pyStartsWith "/item/x123" "http" = false := by
  refine ⟨by decide, by decide, by decide⟩

/-! ### Per-card stale-handling theorems (C5) -/

/-- C5 (amended): the card loop re-verifies DOM attachment before reading
each held card reference, but a detected stale/detached reference makes it
skip the whole card: no branch of the loop performs a re-resolution from
the parent scope (the re-resolution counter is identically zero), and a
stale event raised during extraction likewise skips the card. -/
theorem processCards_stale_skips_card :
    (∀ cards : List CardModel, (processCards cards).2 = 0)
    ∧ (∀ (c : CardModel) (rest : List CardModel), c.attached = false →
        processCards (c :: rest) = processCards rest)
    ∧ (∀ (c : CardModel) (rest : List CardModel), c.staleDuringExtract = true →
        processCards (c :: rest) = processCards rest) := by
  refine ⟨?_, ?_, ?_⟩
  · intro cards
    induction cards with
    | nil => rfl
    | cons c rest ih =>
      rw [processCards]
      by_cases h1 : c.attached
      · by_cases h2 : c.staleDuringExtract
        · simpa [h1, h2] using ih
        · rcases hx : extract_card_info c.elems with _ | r <;>
            simpa [h1, h2, hx] using ih
      · simpa [h1] using ih
  · intro c rest h
    rw [processCards]
    simp [h]
  · intro c rest h
    rw [processCards]
    by_cases h1 : c.attached <;> simp [h1, h]

/-- Witness for C5 (amended): a card found detached at the attachment
re-check contributes nothing to the result. -/
theorem processCards_stale_skips_card_witness :
    processCards [staleCard] = processCards [] :=
  processCards_stale_skips_card.2.1 staleCard [] rfl

/-- C5 counterexample: a single stale (detached) reference detected on a
card triggers zero re-resolution attempts, not exactly one — the card is
simply dropped. -/
theorem processCards_stale_no_reresolution :
    processCards [staleCard] = ([], 0)
    ∧ (processCards [staleCard]).2 ≠ 1 := by
  refine ⟨by rfl, by decide⟩

/-! ### search_items theorems (C1, C2) -/

/-- C1 counterexample: the unit of work that dies of a fatal error (every
navigation attempt to the search page raises) returns exactly the same
value as a successful run that found no listings — the empty list — so the
error is not reported upward in a distinguishable form. -/
theorem search_items_fatal_eq_empty_success :
    search_items envFatalNav 5 = ([], 0)
    ∧ search_items envEmptyOk 5 = ([], 0) := by
  exact ⟨rfl, rfl⟩

/-- C1 (amended): every fatal navigation failure in search_items is caught
and converted into the empty-success value: the function returns the empty
list, indistinguishable from a successful search with no listings
(run_workflow behaves the same way, returning the empty list from its
catch-all handler). -/
theorem search_items_fatal_returns_empty (env : SearchEnv) (maxPages : Nat)
    (hd : env.driverValid = true) (hf : ∀ i, env.navFails i = true) :
    search_items env maxPages = ([], 0) := by
  have h0 := hf 0
  have h1 := hf 1
  have h2 := hf 2
  have hn : navRetrySucceeds env = false := by
    rw [navRetrySucceeds]
    cases hm0 : env.midNavValid 0 <;> cases hm1 : env.midNavValid 1 <;>
      simp [h0, h1, h2, hm0, hm1]
  simp [search_items, hd, hn]

/-- Witness for C1 (amended) at the concrete fatal-navigation run. -/
theorem search_items_fatal_returns_empty_witness :
    search_items envFatalNav 5 = ([], 0) :=
  search_items_fatal_returns_empty envFatalNav 5 rfl (fun _ => rfl)

/-- The pagination loop performs at most fuel page loads. -/
theorem pagesLoop_nav_le (env : SearchEnv) (mp : Nat) :
    ∀ fuel page, (pagesLoop env mp fuel page).2 ≤ fuel := by
  intro fuel
  induction fuel with
  | zero =>
    intro page
    exact Nat.le_refl 0
  | succ f ih =>
    intro page
    simp only [pagesLoop]
    by_cases h1 : mp < page
    · rw [if_pos h1]
      exact Nat.zero_le _
    · rw [if_neg h1]
      by_cases h2 : ¬ env.driverValidAt page = true
      · rw [if_pos h2]
        exact Nat.zero_le _
      · rw [if_neg h2]
        by_cases h3 : (env.summariesAt page).isEmpty = true
        · rw [if_pos h3]
          exact Nat.zero_le _
        · rw [if_neg h3]
          by_cases h4 : ¬ env.hasNext page = true
          · rw [if_pos h4]
            exact Nat.zero_le _
          · rw [if_neg h4]
            rcases hn : env.nextNav page with _ | ready
            · exact Nat.zero_le _
            · cases ready
              · exact Nat.succ_le_succ (Nat.zero_le f)
              · exact Nat.succ_le_succ (ih (page + 1))

/-- C2: one search run navigates at most maxPages times inside the
pagination loop of search_items, even when the has-next-page probe reports
true on every page. -/
theorem search_items_page_load_bound (env : SearchEnv) (maxPages : Nat)
    (_hnext : ∀ p, env.hasNext p = true) :
    (search_items env maxPages).2 ≤ maxPages := by
  rw [search_items]
  by_cases h1 : ¬ env.driverValid = true
  · rw [if_pos h1]
    exact Nat.zero_le _
  · rw [if_neg h1]
    by_cases h2 : ¬ navRetrySucceeds env = true
    · rw [if_pos h2]
      exact Nat.zero_le _
    · rw [if_neg h2]
      by_cases h3 : ¬ env.pageReady = true
      · rw [if_pos h3]
        exact Nat.zero_le _
      · rw [if_neg h3]
        exact pagesLoop_nav_le env maxPages maxPages 1

/-- Witness for C2 at the concrete benign run whose has-next probe always
reports true. -/
theorem search_items_page_load_bound_witness :
    (search_items envBase 5).2 ≤ 5 :=
  search_items_page_load_bound envBase 5 (fun _ => rfl)

end JapanScraper
